import Mathlib

/-!
Formal model of the OC_HUB (DCAI Intelligence Platform) repository: the SQL
schema and triggers of backend/migrations/001_initial_schema.sql (with
002/003 and scripts/create_databank.sql), its row-level-security policies,
and the document-ingestion and query/chat pipelines that the repository
documents describe.  Database rows are modelled as Lean structures, SQL
CHECK / NOT NULL constraints as decidable row predicates, triggers as pure
functions on row lists, and the ingestion pipeline as a transition system.
-/

set_option maxRecDepth 8192

namespace OCHub

/-- Values of reports.processing_status used by the lifecycle
(pending, processing, completed, failed). -/
inductive ProcStatus
  | pending
  | processing
  | completed
  | failed
deriving DecidableEq, Repr

/-- Row of the conversations table (001_initial_schema.sql): a conversation
belongs to one user, has a mode constrained by CHECK to single/all/minister,
an optional report reference and an optional title.  Timestamps are modelled
as naturals. -/
structure Conversation where
  id : Nat
  user_id : Nat
  mode : String
  report_id : Option Nat
  title : Option String
  created_at : Nat
  updated_at : Nat
deriving DecidableEq, Repr

/-- Row of the messages table: a message belongs to one conversation and has
a role (user/assistant/system per the CHECK constraint) and content. -/
structure MessageRow where
  id : Nat
  conversation_id : Nat
  role : String
  content : String
deriving DecidableEq, Repr

/-- Trigger function set_conversation_title, translated from
001_initial_schema.sql: AFTER INSERT ON messages, when the new row has role
"user", run UPDATE conversations SET title = LEFT(NEW.content, 100) WHERE
id = NEW.conversation_id AND title IS NULL.  The UPDATE itself fires the
BEFORE UPDATE trigger update_updated_at on every row it touches, which sets
updated_at = NOW(); the current time is passed as the parameter now. -/
def set_conversation_title (now : Nat) (m : MessageRow)
    (convs : List Conversation) : List Conversation :=
  if m.role == "user" then
    convs.map fun c =>
      if c.id == m.conversation_id && c.title.isNone then
        { c with title := some (m.content.take 100), updated_at := now }
      else c
  else convs

/-- Row of the data_bank table.  Columns shared by the two table definitions
in the repository (001_initial_schema.sql / 003_fix_data_bank.sql on one
hand, scripts/create_databank.sql on the other); report_id is Option because
the scripts variant declares it without NOT NULL. -/
structure DataBankRow where
  report_id : Option Nat
  type : String
  content : String
  context : Option String
  source_page : Option Int
  tags : List String
deriving DecidableEq, Repr

/-- The five type tags admitted by the CHECK constraint on data_bank.type in
001_initial_schema.sql and 003_fix_data_bank.sql. -/
def dataBankTypes : List String :=
  ["statistic", "quote", "finding", "aha_moment", "recommendation"]

/-- Row constraints of data_bank as created by migrations 001/003:
report_id UUID NOT NULL plus CHECK (type IN (the five tags)).  Content
being NOT NULL is captured by the field type String. -/
def migrationRowOk (r : DataBankRow) : Bool :=
  r.report_id.isSome && dataBankTypes.contains r.type

/-- Row constraints of data_bank as created by scripts/create_databank.sql:
that definition declares report_id without NOT NULL and declares no CHECK
on type, so every well-typed row passes (type and content NOT NULL are
captured by the field types). -/
def scriptRowOk (_ : DataBankRow) : Bool :=
  true

/-- Foreign-key constraint report_id REFERENCES reports(id): a non-null
reference must name an existing report; SQL foreign keys accept NULL. -/
def fkOk (reportIds : List Nat) (r : DataBankRow) : Bool :=
  match r.report_id with
  | none => true
  | some i => reportIds.contains i

/-- Row of the reports table, restricted to the columns the policies and the
pipeline use.  Note the table has no owner column of any kind. -/
structure ReportRow where
  id : Nat
deriving DecidableEq, Repr

/-- Row of the user_preferences table (primary key user_id). -/
structure PrefRow where
  user_id : Nat
  theme : String
  default_chat_mode : String
deriving DecidableEq, Repr

/-- Row of the processing_jobs table as the policies see it: created_by is a
nullable user reference. -/
structure JobRow where
  id : Nat
  created_by : Option Nat
deriving DecidableEq, Repr

/-- USING clause of the policy "Reports are viewable by authenticated users":
ON reports FOR SELECT TO authenticated USING (true). -/
def reportsSelectUsing (_uid : Nat) (_r : ReportRow) : Bool :=
  true

/-- USING clause of the policy "Users can view own conversations":
USING (auth.uid() = user_id). -/
def conversationsSelectUsing (uid : Nat) (c : Conversation) : Bool :=
  uid == c.user_id

/-- USING clause of the policy "Users can view messages in own
conversations": USING (conversation_id IN (SELECT id FROM conversations
WHERE user_id = auth.uid())). -/
def messagesSelectUsing (uid : Nat) (convs : List Conversation)
    (m : MessageRow) : Bool :=
  (convs.filter fun c => c.user_id == uid).any fun c => c.id == m.conversation_id

/-- USING clause of the policy "Data bank is viewable by authenticated
users": ON data_bank FOR SELECT TO authenticated USING (true), as created by
001_initial_schema.sql and recreated by 003_fix_data_bank.sql. -/
def dataBankSelectUsing (_uid : Nat) (_r : DataBankRow) : Bool :=
  true

/-- USING clause of the policy "Users can manage own preferences":
ON user_preferences FOR ALL USING (auth.uid() = user_id). -/
def prefsAllUsing (uid : Nat) (p : PrefRow) : Bool :=
  uid == p.user_id

/-- Select permission on processing_jobs for the authenticated role:
001_initial_schema.sql enables ROW LEVEL SECURITY on processing_jobs but
declares no policy for it, and row-level security without a policy denies
every row. -/
def jobsSelectUsing (_uid : Nat) (_j : JobRow) : Bool :=
  false

/-- Conversations rows a given authenticated user can read under the
row-level-security policies. -/
def visibleConversations (uid : Nat) (rows : List Conversation) :
    List Conversation :=
  rows.filter (conversationsSelectUsing uid)

/-- Messages rows a given authenticated user can read, given the current
conversations table (the policy scopes by conversation ownership). -/
def visibleMessages (uid : Nat) (convs : List Conversation)
    (msgs : List MessageRow) : List MessageRow :=
  msgs.filter (messagesSelectUsing uid convs)

/-- Reports rows a given authenticated user can read. -/
def visibleReports (uid : Nat) (rows : List ReportRow) : List ReportRow :=
  rows.filter (reportsSelectUsing uid)

/-- The data_bank rows a given authenticated user can read. -/
def visibleDataBank (uid : Nat) (rows : List DataBankRow) : List DataBankRow :=
  rows.filter (dataBankSelectUsing uid)

/-- The user_preferences rows a given authenticated user can read. -/
def visiblePrefs (uid : Nat) (rows : List PrefRow) : List PrefRow :=
  rows.filter (prefsAllUsing uid)

/-- Document record of the reports table: metadata, extracted-intelligence
payload columns (executive_summary, key_findings, statistics, quotes,
aha_moments, recommendations, methodology, limitations), the processing
lifecycle columns and the mineru_folder bundle reference.  JSONB list
columns are modelled as lists of their entry bodies. -/
structure Report where
  title : String
  source : String
  year : Option Int
  category : Option String
  page_count : Option Nat
  original_filename : Option String
  mineru_folder : Option String
  ragflow_doc_id : Option String
  executive_summary : Option String
  key_findings : List String
  statistics : List String
  quotes : List String
  aha_moments : List String
  recommendations : List String
  methodology : Option String
  limitations : Option String
  processing_status : ProcStatus
  processing_error : Option String
deriving DecidableEq, Repr

/-- Structured payload returned by the intelligence-extraction LLM call:
summary plus the five item lists, methodology and limitations (the expected
top-level keys of the extraction response). -/
structure ExtractedIntelligence where
  summary : String
  key_findings : List String
  statistics : List String
  quotes : List String
  aha_moments : List String
  recommendations : List String
  methodology : Option String
  limitations : Option String
deriving DecidableEq, Repr

/-- Modelled from the spec: the extraction-response validation of pipeline
step 4 (the backend service implementing it is not in the repository).  The
typed representation already guarantees the five lists are present, so what
remains to check before accepting the payload is that the required summary
is a non-empty string, which the documented completed-state invariant
demands. -/
def validateExtraction (e : ExtractedIntelligence) : Bool :=
  !(e.summary == "")

/-- Modelled from the spec: the per-document error taxonomy of the error
handling design (ParseError, IndexUploadError, ExtractionError,
StorageWriteError), each carrying the underlying detail text. -/
inductive PipeError
  | parseError (detail : String)
  | indexUploadError (detail : String)
  | extractionError (detail : String)
  | storageWriteError (detail : String)
deriving DecidableEq, Repr

/-- Error message recorded on a failed document: the taxonomy category
label followed by the detail text. -/
def errMsg : PipeError → String
  | .parseError d => "ParseError: " ++ d
  | .indexUploadError d => "IndexUploadError: " ++ d
  | .extractionError d => "ExtractionError: " ++ d
  | .storageWriteError d => "StorageWriteError: " ++ d

/-- Document bundle submitted to the ingestion pipeline: a MinerU folder
name, the title/source metadata inferred for it, and the parsed text. -/
structure Bundle where
  folder : String
  title : String
  source : String
  year : Option Int
  category : Option String
  text : String
deriving DecidableEq, Repr

/-- Modelled from the spec: the document record created when an admin
submits a bundle, before the pipeline runs (processing_status defaults to
pending per the schema; no summary, no error). -/
def newReport (b : Bundle) : Report :=
  { title := b.title
    source := b.source
    year := b.year
    category := b.category
    page_count := none
    original_filename := none
    mineru_folder := some b.folder
    ragflow_doc_id := none
    executive_summary := none
    key_findings := []
    statistics := []
    quotes := []
    aha_moments := []
    recommendations := []
    methodology := none
    limitations := none
    processing_status := .pending
    processing_error := none }

/-- Modelled from the spec: the pipeline takes a document from pending to
processing when it starts working on it. -/
def markProcessing (r : Report) : Report :=
  { r with processing_status := .processing }

/-- Modelled from the spec: pipeline step 5 writes the document record in
state completed with the validated extraction payload (summary and the five
item lists) and clears any error. -/
def completeReport (r : Report) (e : ExtractedIntelligence) : Report :=
  { r with
    processing_status := .completed
    executive_summary := some e.summary
    key_findings := e.key_findings
    statistics := e.statistics
    quotes := e.quotes
    aha_moments := e.aha_moments
    recommendations := e.recommendations
    methodology := e.methodology
    limitations := e.limitations
    processing_error := none }

/-- Modelled from the spec: a per-document failure marks the document
failed and records the taxonomy error message. -/
def failReport (r : Report) (err : PipeError) : Report :=
  { r with
    processing_status := .failed
    processing_error := some (errMsg err) }

/-- Modelled from the spec: the document records reachable through the
ingestion pipeline.  A record is created pending on submission; the pipeline
marks it processing, then either persists it completed with an extraction
payload that passed validation, or marks it failed with a taxonomy error. -/
inductive DocReach : Report → Prop
  | created (b : Bundle) : DocReach (newReport b)
  | start (r : Report) (hs : r.processing_status = .pending) :
      DocReach r → DocReach (markProcessing r)
  | complete (r : Report) (e : ExtractedIntelligence)
      (hs : r.processing_status = .processing)
      (hv : validateExtraction e = true) :
      DocReach r → DocReach (completeReport r e)
  | fail (r : Report) (err : PipeError)
      (hs : r.processing_status = .processing) :
      DocReach r → DocReach (failReport r err)

/-- Outcome of running the pipeline end-to-end on one bundle: either a
validated extraction payload is persisted, or the document fails with a
taxonomy error. -/
inductive PipeOutcome
  | succeeded (e : ExtractedIntelligence)
  | errored (err : PipeError)
deriving DecidableEq, Repr

/-- Terminal document record the pipeline writes for a bundle, for a given
outcome of the external calls. -/
def processBundle (b : Bundle) (o : PipeOutcome) : Report :=
  match o with
  | .succeeded e => completeReport (markProcessing (newReport b)) e
  | .errored err => failReport (markProcessing (newReport b)) err

/-- Modelled from the spec: whether the document store already holds a
record for this bundle, identified by its mineru_folder. -/
def bundleAlreadyProcessed (store : List Report) (b : Bundle) : Bool :=
  store.any fun r => r.mineru_folder == some b.folder

/-- Modelled from the spec: submitting a bundle to the batch endpoint (the
backend handler of POST /test/process-batch is not in the repository).  With
the force-reprocess flag off, a bundle whose record already exists is
skipped; otherwise the pipeline runs and appends the resulting record. -/
def submitBundle (force : Bool) (store : List Report) (b : Bundle)
    (o : PipeOutcome) : List Report :=
  if force || !bundleAlreadyProcessed store b then
    store ++ [processBundle b o]
  else
    store

/-- Rows written to data_bank when persisting a validated extraction
payload for a document: each finding, statistic, quote, insight and
recommendation becomes one row tagged finding / statistic / quote /
aha_moment / recommendation respectively. -/
def mkDataBankRow (rid : Nat) (ty : String) (content : String) : DataBankRow :=
  { report_id := some rid
    type := ty
    content := content
    context := none
    source_page := none
    tags := [] }

/-- Modelled from the spec: pipeline step 5 expands the extraction payload
into individual data_bank records for the document (the backend persistence
code is not in the repository; the five type tags are those of the data_bank
CHECK constraint). -/
def expandItems (rid : Nat) (e : ExtractedIntelligence) : List DataBankRow :=
  e.key_findings.map (mkDataBankRow rid "finding")
    ++ e.statistics.map (mkDataBankRow rid "statistic")
    ++ e.quotes.map (mkDataBankRow rid "quote")
    ++ e.aha_moments.map (mkDataBankRow rid "aha_moment")
    ++ e.recommendations.map (mkDataBankRow rid "recommendation")

/-- Number of persisted data_bank rows of a given type tag. -/
def countByType (ty : String) (rows : List DataBankRow) : Nat :=
  rows.countP fun r => r.type == ty

/-- Whether a report has a non-empty executive summary. -/
def hasSummary (r : Report) : Bool :=
  match r.executive_summary with
  | none => false
  | some s => !(s == "")

/-- Whether a report has a known source (step 2 of the pipeline defaults an
unknown source to the sentinel "Unknown"). -/
def hasSource (r : Report) : Bool :=
  !(r.source == "Unknown")

/-- Whether a report has at least one key finding. -/
def hasFindings (r : Report) : Bool :=
  !r.key_findings.isEmpty

/-- The five counts of the processing-status response, as declared by the
ProcessingStatus interface the admin page consumes: total_reports,
with_summary, with_source, with_findings, missing_extraction. -/
structure ProcessingStatusCounts where
  total_reports : Nat
  with_summary : Nat
  with_source : Nat
  with_findings : Nat
  missing_extraction : Nat
deriving DecidableEq, Repr

/-- One accumulation step of the processing-status query over the document
store: bump the total and each conditional count for one report. -/
def statusAccum (acc : ProcessingStatusCounts) (r : Report) :
    ProcessingStatusCounts :=
  { total_reports := acc.total_reports + 1
    with_summary := acc.with_summary + (if hasSummary r then 1 else 0)
    with_source := acc.with_source + (if hasSource r then 1 else 0)
    with_findings := acc.with_findings + (if hasFindings r then 1 else 0)
    missing_extraction :=
      acc.missing_extraction + (if hasSummary r then 0 else 1) }

/-- Modelled from the spec: the GET /test/process-status handler is not in
the repository; per the CLI/admin surface it reports counts of total
documents, documents with a summary, documents with a source, documents
with findings, and documents missing extraction (no summary yet), computed
in one pass over the document store. -/
def processStatus (store : List Report) : ProcessingStatusCounts :=
  store.foldl statusAccum ⟨0, 0, 0, 0, 0⟩

/-- Per-item state of one document inside a batch job: pending until its
pipeline finishes, then terminally succeeded or failed. -/
inductive ItemState
  | pending
  | succeeded
  | failed
deriving DecidableEq, Repr

/-- Whether a per-item state is terminal. -/
def ItemState.terminal : ItemState → Bool
  | .pending => false
  | _ => true

/-- Job status values of the processing_jobs CHECK constraint. -/
inductive JobStatus
  | pending
  | running
  | completed
  | failed
deriving DecidableEq, Repr

/-- Row of the processing_jobs table that the batch bookkeeping mutates:
the per-item status list and the processed/failed counters. -/
structure ProcessingJob where
  items : List ItemState
  processed_items : Nat
  failed_items : Nat
  status : JobStatus
deriving DecidableEq, Repr

/-- A freshly created batch job over n documents: every item pending,
counters at their schema defaults of 0, status at its default pending. -/
def initJob (n : Nat) : ProcessingJob :=
  { items := List.replicate n .pending
    processed_items := 0
    failed_items := 0
    status := .pending }

/-- Modelled from the spec: the job bookkeeping transitions of pipeline
step 6 (the backend job runner is not in the repository).  One pending item
reaches a terminal state and the matching counter is incremented; the job
is marked completed only once every item is terminal; a job-level abort
marks it failed. -/
inductive JobStep : ProcessingJob → ProcessingJob → Prop
  | start (items : List ItemState) (pr fl : Nat) :
      JobStep ⟨items, pr, fl, .pending⟩ ⟨items, pr, fl, .running⟩
  | itemSucceeds (l₁ l₂ : List ItemState) (pr fl : Nat) (st : JobStatus) :
      JobStep ⟨l₁ ++ .pending :: l₂, pr, fl, st⟩
        ⟨l₁ ++ .succeeded :: l₂, pr + 1, fl, st⟩
  | itemFails (l₁ l₂ : List ItemState) (pr fl : Nat) (st : JobStatus) :
      JobStep ⟨l₁ ++ .pending :: l₂, pr, fl, st⟩
        ⟨l₁ ++ .failed :: l₂, pr, fl + 1, st⟩
  | finish (items : List ItemState) (pr fl : Nat)
      (h : ∀ s ∈ items, s.terminal = true) :
      JobStep ⟨items, pr, fl, .running⟩ ⟨items, pr, fl, .completed⟩
  | abort (items : List ItemState) (pr fl : Nat) :
      JobStep ⟨items, pr, fl, .running⟩ ⟨items, pr, fl, .failed⟩

/-- Job states reachable from a fresh batch job over n documents. -/
inductive JobReach (n : Nat) : ProcessingJob → Prop
  | init : JobReach n (initJob n)
  | step (j j' : ProcessingJob) :
      JobReach n j → JobStep j j' → JobReach n j'

/-- Retrieval modes of the conversations CHECK constraint. -/
inductive ChatMode
  | single
  | all
  | minister
deriving DecidableEq, Repr

/-- A chat request: mode, optional scoped document id, message text. -/
structure ChatRequest where
  mode : ChatMode
  document_id : Option Nat
  content : String
deriving DecidableEq, Repr

/-- Errors a chat request can surface to the caller. -/
inductive ChatErr
  | documentNotFound
  | gatewayFailure (msg : String)
deriving DecidableEq, Repr

/-- Message roles of the messages CHECK constraint, for writes done by
chat handling. -/
inductive MsgRole
  | user
  | assistant
  | system
deriving DecidableEq, Repr

/-- A message the chat handler persists. -/
structure ChatMsg where
  role : MsgRole
  content : String
deriving DecidableEq, Repr

/-- Result of handling one chat request: the response or error returned to
the caller, the number of LLM gateway calls performed, and the messages
written to the conversation. -/
structure ChatOutcome where
  result : Except ChatErr String
  llm_calls : Nat
  writes : List ChatMsg
deriving Repr

/-- Whether the chat result is a success. -/
def chatOk : Except ChatErr String → Bool
  | .ok _ => true
  | .error _ => false

/-- Modelled from the spec: the Digital Minister chain (the backend agent
code is not in the repository).  The role-tagged worker prompts
search / frame / challenge / web-search are sent to the gateway in sequence,
their outputs are concatenated into one combine prompt, and the combine
output becomes the assistant message; the whole chain fails at the first
failing gateway call.  Returns the result and the number of gateway calls
performed. -/
def ministerChain (gw : String → Except String String) (q : String) :
    Except String String × Nat :=
  match gw ("search: " ++ q) with
  | .error e => (.error e, 1)
  | .ok s₁ =>
    match gw ("frame: " ++ q) with
    | .error e => (.error e, 2)
    | .ok s₂ =>
      match gw ("challenge: " ++ q) with
      | .error e => (.error e, 3)
      | .ok s₃ =>
        match gw ("web-search: " ++ q) with
        | .error e => (.error e, 4)
        | .ok s₄ =>
          match gw ("combine: " ++ s₁ ++ s₂ ++ s₃ ++ s₄) with
          | .error e => (.error e, 5)
          | .ok s₅ => (.ok s₅, 5)

/-- Modelled from the spec: the chat dispatch handler (the backend chat
endpoint is not in the repository).  Mode single checks the scoped document
id against the retrieval store and fails with DocumentNotFound before any
gateway call when it is absent; mode all calls the gateway unscoped; mode
minister runs the worker chain.  The user and assistant messages are
written only after a successful gateway response; a failure surfaces the
error and writes nothing. -/
def handleChat (store : List Nat) (gw : String → Except String String)
    (req : ChatRequest) : ChatOutcome :=
  match req.mode with
  | .single =>
    match req.document_id with
    | none => ⟨.error .documentNotFound, 0, []⟩
    | some d =>
      if d ∈ store then
        match gw req.content with
        | .ok resp =>
            ⟨.ok resp, 1, [⟨.user, req.content⟩, ⟨.assistant, resp⟩]⟩
        | .error e => ⟨.error (.gatewayFailure e), 1, []⟩
      else ⟨.error .documentNotFound, 0, []⟩
  | .all =>
    match gw req.content with
    | .ok resp => ⟨.ok resp, 1, [⟨.user, req.content⟩, ⟨.assistant, resp⟩]⟩
    | .error e => ⟨.error (.gatewayFailure e), 1, []⟩
  | .minister =>
    match ministerChain gw req.content with
    | (.ok resp, c) =>
        ⟨.ok resp, c, [⟨.user, req.content⟩, ⟨.assistant, resp⟩]⟩
    | (.error e, c) => ⟨.error (.gatewayFailure e), c, []⟩

/-- C10: a user-role message inserted into a conversation whose title is
null sets that conversation's title to the first 100 characters of the
message content (and, via the update_updated_at trigger, its updated_at);
an insert into a conversation whose title is already non-null leaves the
row entirely unchanged, and a non-user-role insert changes no row, so only
the first user message ever sets the title. -/
theorem conversation_title_trigger
    (now : Nat) (m : MessageRow) (convs : List Conversation)
    (c : Conversation) (hc : c ∈ convs) :
    (m.role = "user" ∧ c.title = none ∧ c.id = m.conversation_id →
      { c with title := some (m.content.take 100), updated_at := now }
        ∈ set_conversation_title now m convs)
    ∧ (c.title.isSome = true → c ∈ set_conversation_title now m convs)
    ∧ (m.role ≠ "user" → set_conversation_title now m convs = convs) := by
  refine ⟨?_, ?_, ?_⟩
  · rintro ⟨hr, ht, hid⟩
    unfold set_conversation_title
    rw [if_pos (by simp [hr])]
    have h := List.mem_map_of_mem
      (f := fun c : Conversation =>
        if c.id == m.conversation_id && c.title.isNone then
          { c with title := some (m.content.take 100), updated_at := now }
        else c) hc
    simpa [hid, ht] using h
  · intro ht
    obtain ⟨t, htt⟩ := Option.isSome_iff_exists.mp ht
    unfold set_conversation_title
    by_cases hr : (m.role == "user") = true
    · rw [if_pos hr]
      have h := List.mem_map_of_mem
        (f := fun c : Conversation =>
          if c.id == m.conversation_id && c.title.isNone then
            { c with title := some (m.content.take 100), updated_at := now }
          else c) hc
      simpa [htt] using h
    · rw [if_neg hr]
      exact hc
  · intro hr
    unfold set_conversation_title
    rw [if_neg (by simp [hr])]

/-- Witness for C10: inserting the user message "hello there" into a
conversation with a null title retitles it to "hello there". -/
theorem conversation_title_trigger_witness :
    ({ id := 1, user_id := 4, mode := "all", report_id := none,
       title := some "hello there", created_at := 0,
       updated_at := 9 : Conversation }
        ∈ set_conversation_title 9 ⟨5, 1, "user", "hello there"⟩
            [⟨1, 4, "all", none, none, 0, 0⟩])
    ∧ set_conversation_title 9 ⟨5, 1, "assistant", "reply"⟩
        [⟨1, 4, "all", none, none, 0, 0⟩] = [⟨1, 4, "all", none, none, 0, 0⟩] := by
  constructor
  · have h := (conversation_title_trigger 9 ⟨5, 1, "user", "hello there"⟩
      [⟨1, 4, "all", none, none, 0, 0⟩] ⟨1, 4, "all", none, none, 0, 0⟩
      (by simp)).1 ⟨rfl, rfl, rfl⟩
    simpa using h
  · exact (conversation_title_trigger 9 ⟨5, 1, "assistant", "reply"⟩
      [⟨1, 4, "all", none, none, 0, 0⟩] ⟨1, 4, "all", none, none, 0, 0⟩
      (by simp)).2.2 (by decide)

/-- A data_bank row with no report reference and a type tag outside the
five, used against the scripts/create_databank.sql table definition. -/
def strayDataBankRow : DataBankRow :=
  { report_id := none
    type := "observation"
    content := "unattached note"
    context := none
    source_page := none
    tags := [] }

/-- C7 counterexample: the data_bank definition in
scripts/create_databank.sql declares report_id without NOT NULL and type
without a CHECK constraint, so it accepts (even against an empty reports
table) a row whose document reference is absent and whose type tag is none
of the five values. -/
theorem databank_script_schema_counterexample :
    scriptRowOk strayDataBankRow = true
    ∧ fkOk [] strayDataBankRow = true
    ∧ strayDataBankRow.report_id = none
    ∧ dataBankTypes.contains strayDataBankRow.type = false := by
  decide

/-- C7 amended: under the data_bank schema of migrations 001/003 (NOT NULL
report_id, foreign key into reports, CHECK on type), every accepted row
references exactly one existing report and carries one of the five type
tags. -/
theorem databank_migration_schema_invariant
    (reportIds : List Nat) (r : DataBankRow)
    (hrow : migrationRowOk r = true) (hfk : fkOk reportIds r = true) :
    ∃ i, r.report_id = some i ∧ i ∈ reportIds ∧ r.type ∈ dataBankTypes := by
  unfold migrationRowOk at hrow
  obtain ⟨hsome, hty⟩ := Bool.and_eq_true_iff.mp hrow
  obtain ⟨i, hi⟩ := Option.isSome_iff_exists.mp hsome
  refine ⟨i, hi, ?_, ?_⟩
  · unfold fkOk at hfk
    rw [hi] at hfk
    simpa using hfk
  · simpa using hty

/-- Witness for C7 amended: a finding row pointing at report 5 passes the
migration checks and indeed references an existing report with a legal
tag. -/
theorem databank_migration_schema_invariant_witness :
    ∃ i, (mkDataBankRow 5 "finding" "insight").report_id = some i
      ∧ i ∈ [5, 8] ∧ (mkDataBankRow 5 "finding" "insight").type ∈ dataBankTypes :=
  databank_migration_schema_invariant [5, 8] (mkDataBankRow 5 "finding" "insight")
    (by decide) (by decide)

/-- C8 counterexample: the reports SELECT policy is USING (true) for every
authenticated user (and the reports table has no owner column at all), so
two distinct authenticated users can both read the same document row —
document reads are not owner-scoped. -/
theorem reports_read_not_owner_scoped :
    reportsSelectUsing 7 ⟨42⟩ = true
    ∧ reportsSelectUsing 8 ⟨42⟩ = true
    ∧ (7 : Nat) ≠ 8 := by
  decide

/-- C8 amended: under the migration policies, conversations, messages and
user_preferences are owner-scoped — what a user can read is determined by
that user's own rows alone (changing other users' rows cannot change it),
and every visible conversation is owned by the reader — while reports and
data_bank rows are readable by every authenticated user, and
processing_jobs (row-level security enabled, no policy declared) admits no
authenticated reads at all. -/
theorem rls_owner_scoping_amended :
    (∀ (uid : Nat) (rows₁ rows₂ : List Conversation),
      rows₁.filter (fun c => uid == c.user_id)
          = rows₂.filter (fun c => uid == c.user_id) →
      visibleConversations uid rows₁ = visibleConversations uid rows₂)
    ∧ (∀ (uid : Nat) (rows : List Conversation) (c : Conversation),
      c ∈ visibleConversations uid rows → c.user_id = uid)
    ∧ (∀ (uid : Nat) (convs₁ convs₂ : List Conversation)
        (msgs : List MessageRow),
      convs₁.filter (fun c => c.user_id == uid)
          = convs₂.filter (fun c => c.user_id == uid) →
      visibleMessages uid convs₁ msgs = visibleMessages uid convs₂ msgs)
    ∧ (∀ (uid : Nat) (rows₁ rows₂ : List PrefRow),
      rows₁.filter (fun p => uid == p.user_id)
          = rows₂.filter (fun p => uid == p.user_id) →
      visiblePrefs uid rows₁ = visiblePrefs uid rows₂)
    ∧ (∀ (uid : Nat) (rows : List ReportRow), visibleReports uid rows = rows)
    ∧ (∀ (uid : Nat) (rows : List DataBankRow),
        visibleDataBank uid rows = rows)
    ∧ (∀ (uid : Nat) (j : JobRow), jobsSelectUsing uid j = false) := by
  refine ⟨?_, ?_, ?_, ?_, ?_, ?_, ?_⟩
  · intro uid rows₁ rows₂ h
    simpa [visibleConversations, conversationsSelectUsing] using h
  · intro uid rows c hmem
    unfold visibleConversations at hmem
    have h := (List.mem_filter.mp hmem).2
    unfold conversationsSelectUsing at h
    exact (eq_of_beq h).symm
  · intro uid convs₁ convs₂ msgs h
    have hp : messagesSelectUsing uid convs₁ = messagesSelectUsing uid convs₂ := by
      funext m
      unfold messagesSelectUsing
      rw [h]
    unfold visibleMessages
    rw [hp]
  · intro uid rows₁ rows₂ h
    simpa [visiblePrefs, prefsAllUsing] using h
  · intro uid rows
    simp [visibleReports, reportsSelectUsing]
  · intro uid rows
    simp [visibleDataBank, dataBankSelectUsing]
  · intro uid j
    rfl

/-- Witness for C8 amended: user 1 sees the same conversations whether or
not user 2 has rows, sees only rows they own, and sees every report. -/
theorem rls_owner_scoping_amended_witness :
    visibleConversations 1
        [⟨10, 1, "all", none, none, 0, 0⟩, ⟨11, 2, "all", none, none, 0, 0⟩]
      = visibleConversations 1 [⟨10, 1, "all", none, none, 0, 0⟩]
    ∧ Conversation.user_id ⟨10, 1, "all", none, none, 0, 0⟩ = 1
    ∧ visibleReports 3 [⟨42⟩] = [⟨42⟩] := by
  refine ⟨?_, ?_, ?_⟩
  · exact rls_owner_scoping_amended.1 1
      [⟨10, 1, "all", none, none, 0, 0⟩, ⟨11, 2, "all", none, none, 0, 0⟩]
      [⟨10, 1, "all", none, none, 0, 0⟩] (by decide)
  · exact rls_owner_scoping_amended.2.1 1 [⟨10, 1, "all", none, none, 0, 0⟩]
      ⟨10, 1, "all", none, none, 0, 0⟩ (by decide)
  · exact rls_owner_scoping_amended.2.2.2.2.1 3 [⟨42⟩]

/-- Whatever the pipeline outcome, the record written for a bundle carries
that bundle's mineru_folder. -/
theorem processBundle_mineru_folder (b : Bundle) (o : PipeOutcome) :
    (processBundle b o).mineru_folder = some b.folder := by
  cases o <;> rfl

/-- C5: submitting the same bundle twice with the force-reprocess flag off
is idempotent — the second submission finds the record written (or kept) by
the first and skips, so the store is unchanged and no duplicate record is
created, whatever the two pipeline outcomes would have been. -/
theorem resubmit_without_force_idempotent
    (store : List Report) (b : Bundle) (o₁ o₂ : PipeOutcome) :
    submitBundle false (submitBundle false store b o₁) b o₂ =
      submitBundle false store b o₁ := by
  by_cases h : bundleAlreadyProcessed store b
  · simp [submitBundle, h]
  · have h₂ : bundleAlreadyProcessed (store ++ [processBundle b o₁]) b = true := by
      unfold bundleAlreadyProcessed
      simp [List.any_append, processBundle_mineru_folder]
    simp [submitBundle, h, h₂]

/-- Helper for C9: folding the status accumulator over the store from any
starting counts adds the length and the four conditional counts. -/
theorem foldl_statusAccum (store : List Report) :
    ∀ acc : ProcessingStatusCounts,
      store.foldl statusAccum acc =
        ⟨acc.total_reports + store.length,
         acc.with_summary + store.countP hasSummary,
         acc.with_source + store.countP hasSource,
         acc.with_findings + store.countP hasFindings,
         acc.missing_extraction + store.countP fun r => !hasSummary r⟩ := by
  induction store with
  | nil => intro acc; simp
  | cons r rs ih =>
    intro acc
    rw [List.foldl_cons, ih]
    simp only [List.countP_cons, statusAccum, List.length_cons,
      ProcessingStatusCounts.mk.injEq]
    cases hs : hasSummary r <;> cases hsrc : hasSource r <;>
      cases hf : hasFindings r <;> simp [hs, hsrc, hf] <;> omega

/-- C9: the processing-status query over the document store returns exactly
the five counts of the admin surface — total documents, documents with a
non-empty summary, documents with a known source, documents with findings,
and documents missing extraction (no summary yet). -/
theorem process_status_counts (store : List Report) :
    processStatus store =
      ⟨store.length,
       store.countP hasSummary,
       store.countP hasSource,
       store.countP hasFindings,
       store.countP fun r => !hasSummary r⟩ := by
  unfold processStatus
  rw [foldl_statusAccum]
  simp

/-- Helper for C4: rows produced with a fixed type tag contribute their
whole list length to the count of that tag and nothing to any other tag. -/
theorem countByType_map_mkRow (rid : Nat) (ty t : String) (l : List String) :
    countByType t (l.map (mkDataBankRow rid ty)) =
      if ty == t then l.length else 0 := by
  unfold countByType
  rw [List.countP_map]
  by_cases h : (ty == t) = true
  · simp [Function.comp, mkDataBankRow, h]
  · simp only [Bool.not_eq_true] at h
    simp [Function.comp, mkDataBankRow, h]

/-- C4: a well-formed extraction payload with 3 findings, 5 statistics, 0
quotes, 2 insights and 1 recommendation is persisted as exactly 11
data_bank rows for the document, split 3/5/0/2/1 across the type tags
finding, statistic, quote, aha_moment and recommendation. -/
theorem extraction_persists_eleven_items (rid : Nat)
    (e : ExtractedIntelligence)
    (hf : e.key_findings.length = 3) (hs : e.statistics.length = 5)
    (hq : e.quotes.length = 0) (ha : e.aha_moments.length = 2)
    (hr : e.recommendations.length = 1) :
    (expandItems rid e).length = 11
    ∧ countByType "finding" (expandItems rid e) = 3
    ∧ countByType "statistic" (expandItems rid e) = 5
    ∧ countByType "quote" (expandItems rid e) = 0
    ∧ countByType "aha_moment" (expandItems rid e) = 2
    ∧ countByType "recommendation" (expandItems rid e) = 1 := by
  have hcount : ∀ t : String,
      countByType t (expandItems rid e) =
        (if ("finding" == t) then e.key_findings.length else 0)
        + ((if ("statistic" == t) then e.statistics.length else 0)
        + ((if ("quote" == t) then e.quotes.length else 0)
        + ((if ("aha_moment" == t) then e.aha_moments.length else 0)
        + (if ("recommendation" == t) then e.recommendations.length else 0)))) := by
    intro t
    unfold expandItems countByType
    simp only [List.countP_append]
    rw [show ∀ a b c d f : Nat, a + b + c + d + f = a + (b + (c + (d + f)))
      from by intros; omega]
    rw [← countByType_map_mkRow rid "finding" t,
      ← countByType_map_mkRow rid "statistic" t,
      ← countByType_map_mkRow rid "quote" t,
      ← countByType_map_mkRow rid "aha_moment" t,
      ← countByType_map_mkRow rid "recommendation" t]
    rfl
  refine ⟨?_, ?_, ?_, ?_, ?_, ?_⟩
  · unfold expandItems
    simp [hf, hs, hq, ha, hr]
  all_goals rw [hcount]; simp [hf, hs, hq, ha, hr]

/-- A concrete extraction payload with 3 findings, 5 statistics, 0 quotes,
2 insights and 1 recommendation. -/
def samplePayload : ExtractedIntelligence :=
  { summary := "summary"
    key_findings := ["f1", "f2", "f3"]
    statistics := ["s1", "s2", "s3", "s4", "s5"]
    quotes := []
    aha_moments := ["a1", "a2"]
    recommendations := ["r1"]
    methodology := none
    limitations := none }

/-- Witness for C4: the sample 3/5/0/2/1 payload yields 11 rows with the
stated split. -/
theorem extraction_persists_eleven_items_witness :
    (expandItems 1 samplePayload).length = 11
    ∧ countByType "finding" (expandItems 1 samplePayload) = 3
    ∧ countByType "statistic" (expandItems 1 samplePayload) = 5
    ∧ countByType "quote" (expandItems 1 samplePayload) = 0
    ∧ countByType "aha_moment" (expandItems 1 samplePayload) = 2
    ∧ countByType "recommendation" (expandItems 1 samplePayload) = 1 :=
  extraction_persists_eleven_items 1 samplePayload rfl rfl rfl rfl rfl

/-- C3: a single-document chat request whose referenced document id is not
in the retrieval store returns DocumentNotFound, performs zero LLM gateway
calls and writes nothing. -/
theorem single_chat_missing_doc_no_llm (store : List Nat)
    (gw : String → Except String String) (req : ChatRequest) (d : Nat)
    (hm : req.mode = .single) (hd : req.document_id = some d)
    (hmem : d ∉ store) :
    handleChat store gw req = ⟨.error .documentNotFound, 0, []⟩ := by
  obtain ⟨mode, did, content⟩ := req
  simp only at hm hd
  subst hm hd
  simp [handleChat, hmem]

/-- Witness for C3: asking about document 99 against a store holding only
documents 1 and 2 yields DocumentNotFound with zero gateway calls. -/
theorem single_chat_missing_doc_no_llm_witness :
    handleChat [1, 2] (fun _ => .ok "reply") ⟨.single, some 99, "brief me"⟩ =
      ⟨.error .documentNotFound, 0, []⟩ :=
  single_chat_missing_doc_no_llm [1, 2] (fun _ => .ok "reply")
    ⟨.single, some 99, "brief me"⟩ 99 rfl rfl (by decide)

/-- C6: in every chat mode, an assistant message is among the persisted
writes exactly when the request result is a success (which, whenever the
gateway is reached, is the propagated gateway outcome), and a failed
request writes nothing, leaving the persisted conversation unchanged. -/
theorem assistant_persisted_iff_gateway_ok (store : List Nat)
    (gw : String → Except String String) (req : ChatRequest) :
    (chatOk (handleChat store gw req).result = true ↔
      ((handleChat store gw req).writes.any fun m => m.role == .assistant)
        = true)
    ∧ (chatOk (handleChat store gw req).result = false →
        (handleChat store gw req).writes = []) := by
  obtain ⟨mode, did, content⟩ := req
  cases mode with
  | single =>
    cases did with
    | none => simp [handleChat, chatOk]
    | some d =>
      by_cases hd : d ∈ store
      · cases hgw : gw content with
        | ok resp => simp [handleChat, chatOk, hd, hgw]
        | error e => simp [handleChat, chatOk, hd, hgw]
      · simp [handleChat, chatOk, hd]
  | all =>
    cases hgw : gw content with
    | ok resp => simp [handleChat, chatOk, hgw]
    | error e => simp [handleChat, chatOk, hgw]
  | minister =>
    rcases hmc : ministerChain gw content with ⟨res, c⟩
    cases res with
    | ok resp => simp [handleChat, chatOk, hmc]
    | error e => simp [handleChat, chatOk, hmc]

/-- A gateway that is down: every call fails. -/
def gatewayDown : String → Except String String :=
  fun _ => .error "service unavailable"

/-- Witness for C6: with the gateway down, an all-mode request persists
nothing. -/
theorem assistant_persisted_iff_gateway_ok_witness :
    (handleChat [] gatewayDown ⟨.all, none, "question"⟩).writes = [] :=
  (assistant_persisted_iff_gateway_ok [] gatewayDown
    ⟨.all, none, "question"⟩).2 rfl

/-- The recorded error message of every taxonomy error is non-empty: it
starts with the category label. -/
theorem errMsg_ne_empty (err : PipeError) : errMsg err ≠ "" := by
  cases err <;>
    · intro h
      have hl := congrArg String.length h
      simp only [errMsg, String.length_append] at hl
      simp at hl
      exact absurd hl.1 (by decide)

/-- C1: every document record reachable through the ingestion pipeline
satisfies the lifecycle invariant — completed implies a non-null, non-empty
executive summary, failed implies a non-null, non-empty error message, and
no record is in both states at once. -/
theorem report_lifecycle_invariant (r : Report) (h : DocReach r) :
    (r.processing_status = .completed →
      ∃ s, r.executive_summary = some s ∧ s ≠ "")
    ∧ (r.processing_status = .failed →
      ∃ m, r.processing_error = some m ∧ m ≠ "")
    ∧ ¬(r.processing_status = .completed ∧ r.processing_status = .failed) := by
  induction h with
  | created b =>
    refine ⟨?_, ?_, ?_⟩ <;> simp [newReport]
  | start r hs _ _ =>
    refine ⟨?_, ?_, ?_⟩ <;> simp [markProcessing]
  | complete r e hs hv _ _ =>
    refine ⟨?_, ?_, ?_⟩
    · intro _
      refine ⟨e.summary, rfl, ?_⟩
      unfold validateExtraction at hv
      simpa using hv
    · intro hfl
      simp [completeReport] at hfl
    · rintro ⟨-, hfl⟩
      simp [completeReport] at hfl
  | fail r err hs _ _ =>
    refine ⟨?_, ?_, ?_⟩
    · intro hco
      simp [failReport] at hco
    · intro _
      exact ⟨errMsg err, rfl, errMsg_ne_empty err⟩
    · rintro ⟨hco, -⟩
      simp [failReport] at hco

/-- A sample bundle submitted to the pipeline. -/
def sampleBundle : Bundle :=
  { folder := "report-2024-wef"
    title := "Future of Jobs"
    source := "WEF"
    year := some 2024
    category := some "AI"
    text := "full text" }

/-- The record obtained by running the sample bundle through submission,
start and completed persistence with the sample payload. -/
def sampleCompleted : Report :=
  completeReport (markProcessing (newReport sampleBundle)) samplePayload

/-- Witness for C1: the completed sample record is reachable and satisfies
the lifecycle invariant. -/
theorem report_lifecycle_invariant_witness :
    (sampleCompleted.processing_status = .completed →
      ∃ s, sampleCompleted.executive_summary = some s ∧ s ≠ "")
    ∧ (sampleCompleted.processing_status = .failed →
      ∃ m, sampleCompleted.processing_error = some m ∧ m ≠ "")
    ∧ ¬(sampleCompleted.processing_status = .completed
        ∧ sampleCompleted.processing_status = .failed) :=
  report_lifecycle_invariant sampleCompleted
    (DocReach.complete _ samplePayload rfl rfl
      (DocReach.start _ rfl (DocReach.created sampleBundle)))

/-- Helper for C2: the succeeded and failed counts of an item list sum to
its count of terminal items. -/
theorem countP_terminal_split (l : List ItemState) :
    l.countP (fun s => s == ItemState.succeeded)
        + l.countP (fun s => s == ItemState.failed)
      = l.countP (fun s => s.terminal) := by
  induction l with
  | nil => rfl
  | cons s l ih =>
    cases s with
    | pending =>
      simp [List.countP_cons,
        show (ItemState.pending == ItemState.succeeded) = false from rfl,
        show (ItemState.pending == ItemState.failed) = false from rfl,
        show ItemState.pending.terminal = false from rfl]
      omega
    | succeeded =>
      simp [List.countP_cons,
        show (ItemState.succeeded == ItemState.succeeded) = true from rfl,
        show (ItemState.succeeded == ItemState.failed) = false from rfl,
        show ItemState.succeeded.terminal = true from rfl]
      omega
    | failed =>
      simp [List.countP_cons,
        show (ItemState.failed == ItemState.succeeded) = false from rfl,
        show (ItemState.failed == ItemState.failed) = true from rfl,
        show ItemState.failed.terminal = true from rfl]
      omega

/-- Bookkeeping invariant of a batch job over n documents: the item list
covers the n documents, the two counters count exactly the succeeded and
failed items, and a completed job has only terminal items. -/
def JobCountersOk (n : Nat) (j : ProcessingJob) : Prop :=
  j.items.length = n
  ∧ j.processed_items = j.items.countP (fun s => s == ItemState.succeeded)
  ∧ j.failed_items = j.items.countP (fun s => s == ItemState.failed)
  ∧ (j.status = .completed → ∀ s ∈ j.items, s.terminal = true)

/-- Every reachable batch-job state satisfies the bookkeeping invariant. -/
theorem jobReach_countersOk (n : Nat) (j : ProcessingJob)
    (h : JobReach n j) : JobCountersOk n j := by
  induction h with
  | init =>
    refine ⟨by simp [initJob], ?_, ?_, by intro hc; cases hc⟩
    · have hz : ∀ s ∈ List.replicate n ItemState.pending,
          ¬((s == ItemState.succeeded) = true) := by
        intro s hs
        rw [List.eq_of_mem_replicate hs]
        decide
      simp [initJob, List.countP_eq_zero.mpr hz]
    · have hz : ∀ s ∈ List.replicate n ItemState.pending,
          ¬((s == ItemState.failed) = true) := by
        intro s hs
        rw [List.eq_of_mem_replicate hs]
        decide
      simp [initJob, List.countP_eq_zero.mpr hz]
  | step j j' hr hs ih =>
    obtain ⟨hlen, hpr, hfl, hst⟩ := ih
    cases hs with
    | start items pr fl =>
      exact ⟨hlen, hpr, hfl, by intro hc; cases hc⟩
    | itemSucceeds l₁ l₂ pr fl st =>
      refine ⟨?_, ?_, ?_, ?_⟩
      · simpa using hlen
      · simp [List.countP_append, List.countP_cons,
          show (ItemState.pending == ItemState.succeeded) = false from rfl,
          show (ItemState.succeeded == ItemState.succeeded) = true from rfl]
          at hpr ⊢
        omega
      · simp [List.countP_append, List.countP_cons,
          show (ItemState.pending == ItemState.failed) = false from rfl,
          show (ItemState.succeeded == ItemState.failed) = false from rfl]
          at hfl ⊢
        omega
      · intro hc
        have hterm := hst hc
        have hp := hterm ItemState.pending (by simp)
        cases hp
    | itemFails l₁ l₂ pr fl st =>
      refine ⟨?_, ?_, ?_, ?_⟩
      · simpa using hlen
      · simp [List.countP_append, List.countP_cons,
          show (ItemState.pending == ItemState.succeeded) = false from rfl,
          show (ItemState.failed == ItemState.succeeded) = false from rfl]
          at hpr ⊢
        omega
      · simp [List.countP_append, List.countP_cons,
          show (ItemState.pending == ItemState.failed) = false from rfl,
          show (ItemState.failed == ItemState.failed) = true from rfl]
          at hfl ⊢
        omega
      · intro hc
        have hterm := hst hc
        have hp := hterm ItemState.pending (by simp)
        cases hp
    | finish items pr fl hterm =>
      exact ⟨hlen, hpr, hfl, fun _ => hterm⟩
    | abort items pr fl =>
      exact ⟨hlen, hpr, hfl, by intro hc; cases hc⟩

/-- C2: in every reachable state of a batch job over n documents, the sum
of the processed and failed counters equals n exactly when every one of
the n items has reached a terminal state, and the job carries status
completed only when every item is terminal. -/
theorem job_counters_terminal_iff (n : Nat) (j : ProcessingJob)
    (h : JobReach n j) :
    ((j.processed_items + j.failed_items = n) ↔
      ∀ s ∈ j.items, s.terminal = true)
    ∧ (j.status = .completed → ∀ s ∈ j.items, s.terminal = true) := by
  obtain ⟨hlen, hpr, hfl, hst⟩ := jobReach_countersOk n j h
  refine ⟨?_, hst⟩
  rw [hpr, hfl, countP_terminal_split, ← hlen]
  exact List.countP_eq_length

/-- The one-item batch job after its single document succeeded. -/
def sampleJob : ProcessingJob :=
  { items := [.succeeded]
    processed_items := 1
    failed_items := 0
    status := .pending }

/-- Witness for C2: for the one-document job whose item succeeded, the
counters sum to 1 and every item is terminal. -/
theorem job_counters_terminal_iff_witness :
    ((sampleJob.processed_items + sampleJob.failed_items = 1) ↔
      ∀ s ∈ sampleJob.items, s.terminal = true)
    ∧ (sampleJob.status = .completed →
        ∀ s ∈ sampleJob.items, s.terminal = true) :=
  job_counters_terminal_iff 1 sampleJob
    (JobReach.step _ _ JobReach.init (JobStep.itemSucceeds [] [] 0 0 .pending))

end OCHub
